/-
Verification of the SerialServer bridge (serial ⇄ UDP relay).

Shallow embedding of the Rust sources:
  * src/serial/mod.rs — `SerialDevice` (open, try_clone, read, write,
    write_all, flush, Drop);
  * src/server.rs     — `Server` (construction, serial→UDP loop,
    UDP→serial loop);
  * src/logger.rs     — `Logger::log`;
  * src/error.rs      — the crate error type.

I/O against the OS (the native serial shim, UDP sockets, address
resolution) is modelled by explicit outcome parameters ("oracles"): each
native call's result is an input to the embedded function, and the
embedded function returns the externally visible effects it performs.
-/
import Mathlib

set_option maxHeartbeats 1000000

namespace SerialServer

/-- The crate error type `Error` (src/error.rs), abstracted to the two
shapes the code actually produces and that the spec taxonomy
discriminates: an `Error` built via `From<NulError>` (taxonomy class
`InvalidArgument`) and an `Error` whose description is an I/O message
(taxonomy class `IoError`, built by `eio!`).  The backtrace field and the
boxed source are not needed by any claim and are not modelled. -/
inductive SError where
  | invalidArgument : SError
  | ioError (desc : String) : SError
deriving DecidableEq, Repr

/-- Outcome of one underlying `SerialDevice::write` call inside
`write_all` (src/serial/mod.rs): the native write either reports `n`
bytes written, or fails with an error that the `?` operator propagates. -/
inductive WriteStep where
  | wrote (n : Nat) : WriteStep
  | failed (e : SError) : WriteStep
deriving DecidableEq, Repr

/-- Whether a write outcome is a successful (non-erroring) write. -/
def isWrote : WriteStep → Bool
  | WriteStep.wrote _ => true
  | WriteStep.failed _ => false

/-- `SerialDevice::write_all` (src/serial/mod.rs, lines 87–95): while the
buffer is nonempty, call `write`; a write reporting `0` bytes raises
`eio!("failed to write whole buffer")`; a write reporting `n` bytes drops
the first `n` bytes of the remaining buffer and retries on the rest.
`steps` enumerates the outcomes of the successive `write` calls.  The
result is `none` when the model is stuck (the outcome list is exhausted
while bytes remain, or a write reports more bytes than remain — there the
Rust slice `&buf[n..]` would panic); otherwise `some` of either the
propagated error or, on success, the list of chunks consumed by the
successive write calls, in order. -/
def writeAll (buf : List Nat) (steps : List WriteStep) :
    Option (Except SError (List (List Nat))) :=
  match buf, steps with
  | [], _ => some (Except.ok [])
  | _ :: _, [] => none
  | b :: bs, step :: rest =>
    match step with
    | WriteStep.failed e => some (Except.error e)
    | WriteStep.wrote 0 =>
        some (Except.error (SError.ioError "failed to write whole buffer"))
    | WriteStep.wrote (n + 1) =>
        if n + 1 ≤ (b :: bs).length then
          Option.map (fun r => Except.map (fun chunks => (b :: bs).take (n + 1) :: chunks) r)
            (writeAll ((b :: bs).drop (n + 1)) rest)
        else none

/-- The run of `write_all` encounters a `write` call that reports zero
bytes written while bytes remain (the "stalled device" condition).  The
recursion mirrors `writeAll` exactly. -/
def stallsAtZero (buf : List Nat) : List WriteStep → Bool :=
  fun steps =>
  match buf, steps with
  | [], _ => false
  | _ :: _, [] => false
  | b :: bs, step :: rest =>
    match step with
    | WriteStep.failed _ => false
    | WriteStep.wrote 0 => true
    | WriteStep.wrote (n + 1) =>
        if n + 1 ≤ (b :: bs).length then stallsAtZero ((b :: bs).drop (n + 1)) rest
        else false

/-- On success, `write_all` has consumed the entire buffer: the chunks
passed to the successive `write` calls concatenate, in order, to exactly
the input buffer. -/
theorem writeAll_ok_flatten (buf : List Nat) (steps : List WriteStep) (chunks : List (List Nat))
    (h : writeAll buf steps = some (Except.ok chunks)) : chunks.flatten = buf := by
  induction steps generalizing buf chunks with
  | nil =>
      cases buf with
      | nil => simp [writeAll] at h; simp [h]
      | cons b bs => simp [writeAll] at h
  | cons step rest ih =>
      cases buf with
      | nil => simp [writeAll] at h; simp [h]
      | cons b bs =>
          cases step with
          | failed e => simp [writeAll] at h
          | wrote n =>
              cases n with
              | zero => simp [writeAll] at h
              | succ m =>
                  simp [writeAll] at h
                  obtain ⟨hle, a, ha, hmap⟩ := h
                  cases a with
                  | error e => simp [Except.map] at hmap
                  | ok cs =>
                      simp only [Except.map, Except.ok.injEq] at hmap
                      have hj := ih _ _ ha
                      simp [← hmap, hj, List.take_append_drop]

/-- When no underlying `write` call errors, `write_all` returns the
dedicated "failed to write whole buffer" error exactly when some write
call reports zero bytes written while bytes remain. -/
theorem writeAll_stall_iff (buf : List Nat) (steps : List WriteStep)
    (hnf : steps.all isWrote = true) :
    writeAll buf steps = some (Except.error (SError.ioError "failed to write whole buffer"))
      ↔ stallsAtZero buf steps = true := by
  induction steps generalizing buf with
  | nil =>
      cases buf with
      | nil => simp [writeAll, stallsAtZero]
      | cons b bs => simp [writeAll, stallsAtZero]
  | cons step rest ih =>
      simp only [List.all_cons, Bool.and_eq_true] at hnf
      cases buf with
      | nil => simp [writeAll, stallsAtZero]
      | cons b bs =>
          cases step with
          | failed e => simp [isWrote] at hnf
          | wrote n =>
              cases n with
              | zero => simp [writeAll, stallsAtZero]
              | succ m =>
                  show (if m + 1 ≤ (b :: bs).length then _ else none) = _ ↔
                    (if m + 1 ≤ (b :: bs).length then _ else false) = true
                  by_cases hle : m + 1 ≤ (b :: bs).length
                  · rw [if_pos hle, if_pos hle, ← ih _ hnf.2]
                    cases hw : writeAll ((b :: bs).drop (m + 1)) rest with
                    | none => simp
                    | some r =>
                        cases r with
                        | error e => simp [Except.map]
                        | ok cs => simp [Except.map]
                  · rw [if_neg hle, if_neg hle]
                    simp

/-- Claim C1: for every buffer `b`, `SerialDevice::write_all(b)` either
returns success having passed every byte of `b` to the underlying write
operation — consuming the entire buffer, in order, with each retry
continuing from the first unwritten byte — or returns the error
`IoError("failed to write whole buffer")`, which is raised exactly when a
`write` call reports zero bytes written; it never returns success having
forwarded only a strict prefix of `b`. -/
theorem write_all_contract (buf : List Nat) (steps : List WriteStep)
    (hnf : steps.all isWrote = true) :
    (∀ chunks, writeAll buf steps = some (Except.ok chunks) → chunks.flatten = buf) ∧
    (writeAll buf steps = some (Except.error (SError.ioError "failed to write whole buffer"))
      ↔ stallsAtZero buf steps = true) :=
  ⟨fun chunks h => writeAll_ok_flatten buf steps chunks h, writeAll_stall_iff buf steps hnf⟩

/-- Evaluation of the `write_all` contract at a concrete buffer and a
concrete schedule of short writes. -/
theorem write_all_contract_witness :
    ([WriteStep.wrote 2, WriteStep.wrote 1].all isWrote = true) ∧
    ((∀ chunks, writeAll [10, 20, 30] [WriteStep.wrote 2, WriteStep.wrote 1]
        = some (Except.ok chunks) → chunks.flatten = [10, 20, 30]) ∧
     (writeAll [10, 20, 30] [WriteStep.wrote 2, WriteStep.wrote 1]
        = some (Except.error (SError.ioError "failed to write whole buffer"))
      ↔ stallsAtZero [10, 20, 30] [WriteStep.wrote 2, WriteStep.wrote 1] = true)) :=
  ⟨by decide, write_all_contract [10, 20, 30] [WriteStep.wrote 2, WriteStep.wrote 1] (by decide)⟩

/-- A resolved socket address (`std::net::SocketAddr`), abstracted to a
host string and a port number. -/
structure SockAddr where
  host : String
  port : Nat
deriving DecidableEq, Repr

/-- A bound UDP socket as the claims observe it: the address it was bound
at, and the TTL explicitly applied via `set_ttl`, if any (`none` means
the OS default TTL was never overridden). -/
structure ModelSocket where
  bindAddr : SockAddr
  ttl : Option Nat
deriving DecidableEq, Repr

/-- The serial section of the configuration (src/config.rs). -/
structure Serial where
  device : String
  baudrate : Nat
deriving DecidableEq, Repr

/-- The UDP section of the configuration (src/config.rs). -/
structure Udp where
  listen : String
  send : Option String
  ttl : Nat
deriving DecidableEq, Repr

/-- The logger section of the configuration (src/config.rs). -/
structure Log where
  enabled : Bool
deriving DecidableEq, Repr

/-- The configuration record (src/config.rs). -/
structure Config where
  serial : Serial
  udp : Udp
  log : Log
deriving DecidableEq, Repr

/-- Outcomes of the OS and network calls the server makes, supplied as an
environment: how `UdpSocket::bind(&str)` resolves the listen string, the
outcome of `to_socket_addrs` on the send string (`none` models an `Err`),
injected `bind`/`set_ttl` failures, and the native serial open. -/
structure Env where
  resolveListen : String → Option SockAddr
  resolveSend : String → Option (List SockAddr)
  bindFails : SockAddr → Bool
  setTtlFails : Bool
  openSerial : String → Nat → Except SError Nat

/-- `UdpSocket::bind` on an address string (used with the listen
address): resolve, then bind.  A fresh socket keeps the OS default TTL. -/
def udpBindStr (env : Env) (s : String) : Except SError ModelSocket :=
  match env.resolveListen s with
  | none => Except.error (SError.ioError "invalid socket address")
  | some a =>
      if env.bindFails a then Except.error (SError.ioError "bind failed")
      else Except.ok { bindAddr := a, ttl := none }

/-- `UdpSocket::bind` on an already resolved address (used with the
resolved send address in `runloop_serial2udp`). -/
def udpBindAddr (env : Env) (a : SockAddr) : Except SError ModelSocket :=
  if env.bindFails a then Except.error (SError.ioError "bind failed")
  else Except.ok { bindAddr := a, ttl := none }

/-- `UdpSocket::set_ttl`. -/
def socketSetTtl (env : Env) (sock : ModelSocket) (ttl : Nat) : Except SError ModelSocket :=
  if env.setTtlFails then Except.error (SError.ioError "set_ttl failed")
  else Except.ok { sock with ttl := some ttl }

/-- The `Server` value produced by `Server::new` (src/server.rs). -/
structure Server where
  config : Config
  socket : ModelSocket
  serialFd : Nat
  logger : Option Unit
deriving Repr

/-- `Server::new` (src/server.rs, lines 22–30): bind the UDP socket at
the configured listen address, open the serial device at the configured
path and baud rate, and create the logger exactly when logging is
enabled.  Note: no `set_ttl` call occurs here. -/
def Server.new (config : Config) (env : Env) : Except SError Server :=
  match udpBindStr env config.udp.listen with
  | Except.error e => Except.error e
  | Except.ok socket =>
      match env.openSerial config.serial.device config.serial.baudrate with
      | Except.error e => Except.error e
      | Except.ok fd =>
          Except.ok { config := config, socket := socket, serialFd := fd,
                      logger := if config.log.enabled then some () else none }

/-- The `'make_socket` block at the start of `Server::runloop_serial2udp`
(src/server.rs, lines 49–67): unwrap the configured send address, resolve
it via `to_socket_addrs`, take the first resolved address, bind a UDP
socket at that address, and apply the configured TTL to it.  An absent
config entry, a resolution error, or an empty resolution each yield
`none` (fan-out disabled) without raising an error; `bind`/`set_ttl`
failures propagate via `?`. -/
def makeSendSocket (config : Config) (env : Env) :
    Except SError (Option (SockAddr × ModelSocket)) :=
  match config.udp.send with
  | none => Except.ok none
  | some addressString =>
      match env.resolveSend addressString with
      | none => Except.ok none
      | some addresses =>
          match addresses with
          | [] => Except.ok none
          | address :: _ =>
              match udpBindAddr env address with
              | Except.error e => Except.error e
              | Except.ok socket =>
                  match socketSetTtl env socket config.udp.ttl with
                  | Except.error e => Except.error e
                  | Except.ok socket => Except.ok (some (address, socket))

/-- An externally visible effect of one loop iteration. -/
inductive Effect where
  | udpSend (dest : SockAddr) (data : List Nat) : Effect
  | logged (data : List Nat) : Effect
  | serialWrite (data : List Nat) : Effect
  | serialFlush : Effect
deriving DecidableEq, Repr

/-- `Server::log` (src/server.rs, lines 107–114): forwards the data to
the logger when one is present, and is a no-op otherwise. -/
def logEffects (logEnabled : Bool) (data : List Nat) : List Effect :=
  if logEnabled then [Effect.logged data] else []

/-- The `socket_send_to` closure of `runloop_serial2udp` (src/server.rs,
lines 70–78): when fan-out is enabled, send one UDP datagram to the
destination address; otherwise a no-op that reports `buf.len()` as sent.
`sendFails` injects a `send_to` failure. -/
def socketSendTo (fanout : Option (SockAddr × ModelSocket)) (sendFails : Bool)
    (data : List Nat) : Except SError (Nat × List Effect) :=
  match fanout with
  | some (address, _socket) =>
      if sendFails then Except.error (SError.ioError "send failed")
      else Except.ok (data.length, [Effect.udpSend address data])
  | none => Except.ok (data.length, [])

/-- Environment of one iteration of the serial→UDP loop: the outcome of
`serial.read(&mut buf)` — the bytes read into the 400-byte buffer, or an
error — and whether a `send_to` in this iteration would fail. -/
structure S2UIter where
  readResult : Except SError (List Nat)
  sendFails : Bool

/-- One iteration of the body of the `loop` in `runloop_serial2udp`
(src/server.rs, lines 80–89): read a chunk; with zero bytes read, do
nothing at all; otherwise pass the chunk to `socket_send_to` and then to
`Server::log`. -/
def s2uStep (fanout : Option (SockAddr × ModelSocket)) (logEnabled : Bool)
    (iter : S2UIter) : Except SError (List Effect) :=
  match iter.readResult with
  | Except.error e => Except.error e
  | Except.ok data =>
      if 0 < data.length then
        match socketSendTo fanout iter.sendFails data with
        | Except.error e => Except.error e
        | Except.ok (_sent, effects) => Except.ok (effects ++ logEffects logEnabled data)
      else Except.ok []

/-- A finite prefix of the infinite `loop` of `runloop_serial2udp`:
iterations run in order, effects accumulate, the first error aborts. -/
def s2uRun (fanout : Option (SockAddr × ModelSocket)) (logEnabled : Bool) :
    List S2UIter → Except SError (List Effect)
  | [] => Except.ok []
  | iter :: rest =>
      match s2uStep fanout logEnabled iter with
      | Except.error e => Except.error e
      | Except.ok effects =>
          match s2uRun fanout logEnabled rest with
          | Except.error e => Except.error e
          | Except.ok more => Except.ok (effects ++ more)

/-- `Server::runloop_serial2udp` (src/server.rs, lines 49–89): build the
optional fan-out socket once before the loop, then run the loop.  The
resolver is consulted only here, never per iteration. -/
def runloopSerial2Udp (config : Config) (env : Env) (iters : List S2UIter) :
    Except SError (List Effect) :=
  match makeSendSocket config env with
  | Except.error e => Except.error e
  | Except.ok fanout => s2uRun fanout config.log.enabled iters

/-- Environment of one iteration of the UDP→serial loop: the datagram
arriving at the socket (or a `recv` error), the outcomes of the `write`
calls performed inside `write_all`, and an injected `flush` failure. -/
structure U2SIter where
  recvResult : Except SError (List Nat)
  writeSteps : List WriteStep
  flushFails : Bool

/-- Capacity of the receive buffer of `runloop_udp2serial`
(`vec![0; 4000]`, src/server.rs line 93). -/
def udpBufCapacity : Nat := 4000

/-- One iteration of the body of the `loop` in `runloop_udp2serial`
(src/server.rs, lines 92–104): `recv` copies at most `udpBufCapacity`
bytes of the arriving datagram into the buffer (standard UDP `recv`
truncation semantics); with zero bytes read, do nothing at all;
otherwise `write_all` the received bytes to the serial device, `flush`
it, and log the bytes.  `none` when the `write_all` model is stuck. -/
def u2sStep (logEnabled : Bool) (iter : U2SIter) :
    Option (Except SError (List Effect)) :=
  match iter.recvResult with
  | Except.error e => some (Except.error e)
  | Except.ok datagram =>
      let data := datagram.take udpBufCapacity
      if 0 < data.length then
        match writeAll data iter.writeSteps with
        | none => none
        | some (Except.error e) => some (Except.error e)
        | some (Except.ok _chunks) =>
            if iter.flushFails then some (Except.error (SError.ioError "flush failed"))
            else some (Except.ok ([Effect.serialWrite data, Effect.serialFlush]
                        ++ logEffects logEnabled data))
      else some (Except.ok [])

/-- A finite prefix of the infinite `loop` of `runloop_udp2serial`. -/
def u2sRun (logEnabled : Bool) : List U2SIter → Option (Except SError (List Effect))
  | [] => some (Except.ok [])
  | iter :: rest =>
      match u2sStep logEnabled iter with
      | none => none
      | some (Except.error e) => some (Except.error e)
      | some (Except.ok effects) =>
          match u2sRun logEnabled rest with
          | none => none
          | some (Except.error e) => some (Except.error e)
          | some (Except.ok more) => some (Except.ok (effects ++ more))

/-- A single `write` that reports the whole remaining buffer completes
`write_all` in one step. -/
theorem writeAll_whole (b : Nat) (bs : List Nat) :
    writeAll (b :: bs) [WriteStep.wrote (bs.length + 1)] = some (Except.ok [b :: bs]) := by
  simp [writeAll, Except.map]

/-- Claim C5: in the UDP→serial loop, receiving a UDP datagram of size 0
performs no serial write, no flush, and no logging, and raises no error:
the iteration produces no effect and the loop simply continues with the
next receive, the serial device state unchanged. -/
theorem udp2serial_empty_datagram (logEnabled : Bool) (writeSteps : List WriteStep)
    (flushFails : Bool) (rest : List U2SIter) :
    u2sStep logEnabled ⟨Except.ok [], writeSteps, flushFails⟩ = some (Except.ok []) ∧
    u2sRun logEnabled (⟨Except.ok [], writeSteps, flushFails⟩ :: rest)
      = u2sRun logEnabled rest := by
  refine ⟨rfl, ?_⟩
  cases hr : u2sRun logEnabled rest with
  | none => simp [u2sRun, u2sStep, hr]
  | some r =>
      cases r with
      | error e => simp [u2sRun, u2sStep, hr]
      | ok more => simp [u2sRun, u2sStep, hr]

/-- Claim C10: in the UDP→serial loop, a datagram longer than the
4000-byte receive buffer is silently truncated: exactly its first 4000
bytes are written to the serial device and logged, no error is raised and
nothing records the lost tail. -/
theorem udp2serial_truncates (logEnabled : Bool) (datagram : List Nat)
    (writeSteps : List WriteStep) (chunks : List (List Nat))
    (hlong : udpBufCapacity < datagram.length)
    (hw : writeAll (datagram.take udpBufCapacity) writeSteps = some (Except.ok chunks)) :
    u2sStep logEnabled ⟨Except.ok datagram, writeSteps, false⟩
      = some (Except.ok ([Effect.serialWrite (datagram.take udpBufCapacity), Effect.serialFlush]
          ++ logEffects logEnabled (datagram.take udpBufCapacity))) ∧
    (datagram.take udpBufCapacity).length = udpBufCapacity := by
  have hlen : (datagram.take udpBufCapacity).length = udpBufCapacity := by
    simp [List.length_take, Nat.min_eq_left (Nat.le_of_lt hlong)]
  refine ⟨?_, hlen⟩
  have hpos : 0 < datagram.length := Nat.lt_of_le_of_lt (Nat.zero_le _) hlong
  simp [u2sStep, hw, hpos]
  decide

/-- Evaluation of the truncation behaviour on a concrete 4001-byte
datagram. -/
theorem udp2serial_truncates_witness :
    (udpBufCapacity < (List.replicate 4001 7).length) ∧
    (writeAll ((List.replicate 4001 7).take udpBufCapacity) [WriteStep.wrote 4000]
        = some (Except.ok [List.replicate 4000 7])) ∧
    (u2sStep false ⟨Except.ok (List.replicate 4001 7), [WriteStep.wrote 4000], false⟩
        = some (Except.ok ([Effect.serialWrite ((List.replicate 4001 7).take udpBufCapacity),
            Effect.serialFlush] ++ logEffects false ((List.replicate 4001 7).take udpBufCapacity))) ∧
     ((List.replicate 4001 7).take udpBufCapacity).length = udpBufCapacity) := by
  have hlong : udpBufCapacity < (List.replicate 4001 7).length := by
    rw [List.length_replicate]
    decide
  have htake : (List.replicate 4001 7).take udpBufCapacity = List.replicate 4000 7 := by
    rw [List.take_replicate]
    norm_num [udpBufCapacity]
  have hw : writeAll ((List.replicate 4001 7).take udpBufCapacity) [WriteStep.wrote 4000]
      = some (Except.ok [List.replicate 4000 7]) := by
    rw [htake]
    have h1 : List.replicate 4000 (7 : Nat) = 7 :: List.replicate 3999 7 := rfl
    rw [h1]
    have h2 := writeAll_whole 7 (List.replicate 3999 7)
    have h3 : (List.replicate 3999 (7 : Nat)).length + 1 = 4000 := by
      rw [List.length_replicate]
    rw [h3] at h2
    exact h2
  exact ⟨hlong, hw,
    udp2serial_truncates false (List.replicate 4001 7) [WriteStep.wrote 4000]
      [List.replicate 4000 7] hlong hw⟩

/-- Claim C6: in the serial→UDP loop, a zero-byte serial read causes the
loop to iterate again with no side effect (no UDP send, no log call) and
no error — never treated as end-of-stream; a read of `n > 0` bytes with
fan-out enabled performs exactly one secondary UDP send carrying exactly
those bytes as one datagram, followed by the logging of the same bytes. -/
theorem serial2udp_read_semantics (fanout : Option (SockAddr × ModelSocket))
    (logEnabled sendFails : Bool) (rest : List S2UIter)
    (address : SockAddr) (socket : ModelSocket) (data : List Nat)
    (hdata : data ≠ []) :
    (s2uStep fanout logEnabled ⟨Except.ok [], sendFails⟩ = Except.ok [] ∧
     s2uRun fanout logEnabled (⟨Except.ok [], sendFails⟩ :: rest)
       = s2uRun fanout logEnabled rest) ∧
    s2uStep (some (address, socket)) logEnabled ⟨Except.ok data, false⟩
      = Except.ok (Effect.udpSend address data :: logEffects logEnabled data) := by
  have hzero : s2uStep fanout logEnabled ⟨Except.ok [], sendFails⟩ = Except.ok [] := by
    simp [s2uStep]
  refine ⟨⟨hzero, ?_⟩, ?_⟩
  · cases hr : s2uRun fanout logEnabled rest with
    | error e => simp [s2uRun, hzero, hr]
    | ok more => simp [s2uRun, hzero, hr]
  · have hpos : 0 < data.length := List.length_pos.mpr hdata
    simp [s2uStep, socketSendTo, hpos]

/-- Evaluation of the serial→UDP read semantics at a concrete nonempty
chunk. -/
theorem serial2udp_read_semantics_witness :
    (([65, 84] : List Nat) ≠ []) ∧
    ((s2uStep none true ⟨Except.ok [], false⟩ = Except.ok [] ∧
      s2uRun none true (⟨Except.ok [], false⟩ :: []) = s2uRun none true []) ∧
     s2uStep (some (⟨"239.0.0.1", 9100⟩, ⟨⟨"239.0.0.1", 9100⟩, some 7⟩)) true
         ⟨Except.ok [65, 84], false⟩
       = Except.ok (Effect.udpSend ⟨"239.0.0.1", 9100⟩ [65, 84] :: logEffects true [65, 84])) :=
  ⟨by decide,
   serial2udp_read_semantics none true false [] ⟨"239.0.0.1", 9100⟩
     ⟨⟨"239.0.0.1", 9100⟩, some 7⟩ [65, 84] (by decide)⟩

/-- Claim C4: in the serial→UDP loop, the optional destination is
resolved exactly once at loop start; if no destination is configured, or
resolution errors or yields no address, the whole run is the run with
fan-out disabled (no error raised, no re-resolution — `s2uRun` never
consults the resolver), while every non-empty serial read is still
forwarded to the observability path normally, only the secondary UDP send
being skipped. -/
theorem serial2udp_fanout_disabled (config : Config) (env : Env) (iters : List S2UIter)
    (hnone : config.udp.send = none ∨
      (∃ s, config.udp.send = some s ∧
        (env.resolveSend s = none ∨ env.resolveSend s = some []))) :
    runloopSerial2Udp config env iters = s2uRun none config.log.enabled iters ∧
    (∀ data : List Nat, data ≠ [] → ∀ sendFails : Bool,
      s2uStep none config.log.enabled ⟨Except.ok data, sendFails⟩
        = Except.ok (logEffects config.log.enabled data)) := by
  have hms : makeSendSocket config env = Except.ok none := by
    rcases hnone with h | ⟨s, hs, h⟩
    · simp [makeSendSocket, h]
    · rcases h with h | h
      · simp [makeSendSocket, hs, h]
      · simp [makeSendSocket, hs, h]
  refine ⟨by simp [runloopSerial2Udp, hms], ?_⟩
  intro data hdata sendFails
  have hpos : 0 < data.length := List.length_pos.mpr hdata
  simp [s2uStep, socketSendTo, hpos]

/-- A configuration without a fan-out destination, logging enabled. -/
def noSendConfig : Config :=
  ⟨⟨"/dev/ttyUSB0", 115200⟩, ⟨"127.0.0.1:9000", none, 7⟩, ⟨true⟩⟩

/-- An environment in which no address resolves and the serial open
fails; no bind or `set_ttl` failures are injected. -/
def offlineEnv : Env :=
  ⟨fun _ => none, fun _ => none, fun _ => false, false,
   fun _ _ => Except.error (SError.ioError "open failed")⟩

/-- Evaluation of the disabled-fan-out behaviour at a concrete
configuration without a destination. -/
theorem serial2udp_fanout_disabled_witness :
    (noSendConfig.udp.send = none ∨
      (∃ s, noSendConfig.udp.send = some s ∧
        (offlineEnv.resolveSend s = none ∨ offlineEnv.resolveSend s = some []))) ∧
    (runloopSerial2Udp noSendConfig offlineEnv [⟨Except.ok [65], false⟩]
        = s2uRun none noSendConfig.log.enabled [⟨Except.ok [65], false⟩] ∧
     (∀ data : List Nat, data ≠ [] → ∀ sendFails : Bool,
       s2uStep none noSendConfig.log.enabled ⟨Except.ok data, sendFails⟩
         = Except.ok (logEffects noSendConfig.log.enabled data))) :=
  ⟨Or.inl rfl,
   serial2udp_fanout_disabled noSendConfig offlineEnv [⟨Except.ok [65], false⟩] (Or.inl rfl)⟩

/-- A configuration with a fan-out destination and TTL 7, logging
disabled. -/
def sampleSendConfig : Config :=
  ⟨⟨"/dev/ttyUSB0", 115200⟩, ⟨"127.0.0.1:9000", some "239.0.0.1:9100", 7⟩, ⟨false⟩⟩

/-- An environment in which the listen string resolves to itself at port
9000, the send string resolves to 239.0.0.1:9100, no bind or `set_ttl`
failure is injected, and the serial open yields descriptor 3. -/
def sampleEnv : Env :=
  ⟨fun s => some ⟨s, 9000⟩, fun _ => some [⟨"239.0.0.1", 9100⟩], fun _ => false, false,
   fun _ _ => Except.ok 3⟩

/-- Counterexample to claim C2 as stated: with a destination configured
and resolving to 239.0.0.1:9100, the secondary UDP socket of the
serial→UDP loop is bound at the resolved destination address itself —
port 9100, which is not an ephemeral (port 0) local bind. -/
theorem send_socket_not_ephemeral :
    makeSendSocket sampleSendConfig sampleEnv
      = Except.ok (some (⟨"239.0.0.1", 9100⟩, ⟨⟨"239.0.0.1", 9100⟩, some 7⟩)) ∧
    (⟨⟨"239.0.0.1", 9100⟩, some 7⟩ : ModelSocket).bindAddr.port ≠ 0 :=
  ⟨rfl, by decide⟩

/-- Claim C2 (amended): in the serial→UDP loop, when fan-out is enabled
(a destination is configured and resolves to at least one address, and
neither `bind` nor `set_ttl` fails), the secondary UDP socket created at
loop start is bound at the resolved destination address itself — not at a
local ephemeral-port address — and the configured TTL is applied to that
socket. -/
theorem send_socket_bound_at_destination (config : Config) (env : Env)
    (s : String) (address : SockAddr) (tail : List SockAddr)
    (hsend : config.udp.send = some s)
    (hres : env.resolveSend s = some (address :: tail))
    (hbind : env.bindFails address = false)
    (httl : env.setTtlFails = false) :
    makeSendSocket config env
      = Except.ok (some (address, { bindAddr := address, ttl := some config.udp.ttl })) := by
  simp [makeSendSocket, hsend, hres, udpBindAddr, hbind, socketSetTtl, httl]

/-- Evaluation of the fan-out socket construction at the sample
configuration. -/
theorem send_socket_bound_at_destination_witness :
    (sampleSendConfig.udp.send = some "239.0.0.1:9100" ∧
     sampleEnv.resolveSend "239.0.0.1:9100" = some [⟨"239.0.0.1", 9100⟩] ∧
     sampleEnv.bindFails ⟨"239.0.0.1", 9100⟩ = false ∧
     sampleEnv.setTtlFails = false) ∧
    makeSendSocket sampleSendConfig sampleEnv
      = Except.ok (some (⟨"239.0.0.1", 9100⟩,
          { bindAddr := ⟨"239.0.0.1", 9100⟩, ttl := some sampleSendConfig.udp.ttl })) :=
  ⟨⟨rfl, rfl, rfl, rfl⟩,
   send_socket_bound_at_destination sampleSendConfig sampleEnv "239.0.0.1:9100"
     ⟨"239.0.0.1", 9100⟩ [] rfl rfl rfl rfl⟩

/-- Counterexample to claim C3 as stated: `Server::new` succeeds with the
receive socket's TTL left at the OS default (`none`), although the
configuration demands TTL 7 — the configured TTL is never applied to the
receive socket. -/
theorem server_new_no_ttl :
    Server.new sampleSendConfig sampleEnv
      = Except.ok ⟨sampleSendConfig, ⟨⟨"127.0.0.1:9000", 9000⟩, none⟩, 3, none⟩ ∧
    sampleSendConfig.udp.ttl = 7 ∧
    (⟨⟨"127.0.0.1:9000", 9000⟩, none⟩ : ModelSocket).ttl ≠ some 7 :=
  ⟨rfl, rfl, by decide⟩

/-- Claim C3 (amended): server construction binds the receive UDP socket
at the configured listen address but leaves that socket's TTL at the OS
default (the configured TTL is not applied to the receive socket — it is
only ever applied to the optional secondary send socket of the
serial→UDP loop), opens the serial device at the configured path and
baud rate, and instantiates the observability sink if and only if
logging is enabled. -/
theorem server_new_spec (config : Config) (env : Env) (a : SockAddr) (fd : Nat)
    (hres : env.resolveListen config.udp.listen = some a)
    (hbind : env.bindFails a = false)
    (hopen : env.openSerial config.serial.device config.serial.baudrate = Except.ok fd) :
    Server.new config env
      = Except.ok { config := config, socket := { bindAddr := a, ttl := none },
                    serialFd := fd,
                    logger := if config.log.enabled then some () else none } := by
  simp [Server.new, udpBindStr, hres, hbind, hopen]

/-- Evaluation of the server construction at the sample configuration. -/
theorem server_new_spec_witness :
    (sampleEnv.resolveListen sampleSendConfig.udp.listen = some ⟨"127.0.0.1:9000", 9000⟩ ∧
     sampleEnv.bindFails ⟨"127.0.0.1:9000", 9000⟩ = false ∧
     sampleEnv.openSerial sampleSendConfig.serial.device sampleSendConfig.serial.baudrate
       = Except.ok 3) ∧
    Server.new sampleSendConfig sampleEnv
      = Except.ok { config := sampleSendConfig,
                    socket := { bindAddr := ⟨"127.0.0.1:9000", 9000⟩, ttl := none },
                    serialFd := 3,
                    logger := if sampleSendConfig.log.enabled then some () else none } :=
  ⟨⟨rfl, rfl, rfl⟩,
   server_new_spec sampleSendConfig sampleEnv ⟨"127.0.0.1:9000", 9000⟩ 3 rfl rfl rfl⟩

/-- Modelled from the spec: the native shim `src/serial/unix.c` is named
by build.rs but is not under src/.  Per the spec's capability surface,
`serial_open` and `serial_duplicate` each produce a fresh OS descriptor,
distinct at the OS level from every previously produced one, and
`serial_close` releases exactly the descriptor it is given.  The world
hands out descriptors as increasing numbers and records every
`serial_close` call in order. -/
structure NativeWorld where
  nextFd : Nat
  closeLog : List Nat
deriving DecidableEq, Repr

/-- Allocation of a fresh native descriptor (the common effect of
`serial_open` and `serial_duplicate`). -/
def nativeAlloc (w : NativeWorld) : Nat × NativeWorld :=
  (w.nextFd, { w with nextFd := w.nextFd + 1 })

/-- `serial_close(fd)`: records the close of `fd`. -/
def nativeClose (fd : Nat) (w : NativeWorld) : NativeWorld :=
  { w with closeLog := w.closeLog ++ [fd] }

/-- `n` successive descriptor allocations: the descriptors in creation
order, and the world afterwards. -/
def allocMany : Nat → NativeWorld → List Nat × NativeWorld
  | 0, w => ([], w)
  | n + 1, w =>
      let fd := (nativeAlloc w).1
      let rest := allocMany n (nativeAlloc w).2
      (fd :: rest.1, rest.2)

/-- `SerialDevice::new` followed by `n` calls to `try_clone`: each of the
`n + 1` instances owns the descriptor its own native call produced. -/
def openAndClones (n : Nat) (w : NativeWorld) : List Nat × NativeWorld :=
  allocMany (n + 1) w

/-- Destruction of a list of `SerialDevice` instances:
`impl Drop for SerialDevice` (src/serial/mod.rs, lines 102–106) runs
`serial_close(self.fd)` unconditionally for each instance, once per
instance. -/
def dropAll (fds : List Nat) (w : NativeWorld) : NativeWorld :=
  fds.foldl (fun w fd => nativeClose fd w) w

/-- Closed form of `allocMany`: consecutive descriptors, an advanced
allocation counter, an untouched close log. -/
theorem allocMany_eq (n : Nat) (w : NativeWorld) :
    allocMany n w = (List.range' w.nextFd n, ⟨w.nextFd + n, w.closeLog⟩) := by
  induction n generalizing w with
  | zero => simp [allocMany]
  | succ m ih =>
      simp only [allocMany, nativeAlloc, ih, List.range'_succ]
      have hadd : w.nextFd + 1 + m = w.nextFd + (m + 1) := by omega
      rw [hadd]

/-- Closed form of `dropAll`: destruction closes exactly the given
descriptors, in order, and touches nothing else. -/
theorem dropAll_eq (fds : List Nat) (w : NativeWorld) :
    dropAll fds w = ⟨w.nextFd, w.closeLog ++ fds⟩ := by
  induction fds generalizing w with
  | nil => simp [dropAll]
  | cons fd rest ih =>
      show dropAll rest (nativeClose fd w) = _
      rw [ih]
      simp [nativeClose]

/-- Claim C7: every `SerialDevice` instance — the original and each
duplicate from `try_clone` — releases its own native descriptor exactly
once, unconditionally, at destruction; no operation other than
destruction closes a descriptor, and duplicating `n` times followed by
destroying all `n + 1` instances issues exactly `n + 1` close calls, one
per distinct descriptor: no double-close and no leak.  (Modelled from
the spec for the absent native shim.) -/
theorem descriptor_closed_exactly_once (n : Nat) :
    (dropAll (openAndClones n ⟨0, []⟩).1 (openAndClones n ⟨0, []⟩).2).closeLog
      = (openAndClones n ⟨0, []⟩).1 ∧
    (openAndClones n ⟨0, []⟩).1.Nodup ∧
    (openAndClones n ⟨0, []⟩).1.length = n + 1 := by
  have h := allocMany_eq (n + 1) ⟨0, []⟩
  simp only [openAndClones, h, dropAll_eq]
  refine ⟨rfl, ?_, ?_⟩
  · exact List.nodup_range' 0 (n + 1)
  · simp

/-- A native call made by the `SerialDevice` wrapper, as recorded by the
model. -/
inductive NativeCall where
  | openCall (pathWithNul : List Nat) (baudrate : Nat) : NativeCall
deriving DecidableEq, Repr

/-- `CString::new(path)` as used by `SerialDevice::new`: fails with a
`NulError` — which `impl From<NulError> for Error` (src/error.rs, lines
68–72) turns into the crate error the spec taxonomy classifies as
`InvalidArgument` — exactly when the path contains an embedded null
byte; otherwise yields the path bytes with a terminating null appended
(`as_bytes_with_nul`). -/
def cstringNew (path : List Nat) : Except SError (List Nat) :=
  if path.contains 0 then Except.error SError.invalidArgument
  else Except.ok (path ++ [0])

/-- The error rendering of the `ffi` helper (src/serial/mod.rs, lines
31–46): a non-null result string `msg` is combined with
`io::Error::last_os_error()` by `eio!("{} ({})", error, errno)`; the OS
error displays as Rust renders it. -/
def ffiErrorDesc (msg : String) (errno : Int) : String :=
  msg ++ " (os error " ++ toString errno ++ ")"

/-- `SerialDevice::new` (src/serial/mod.rs, lines 53–61): prepare the
path as a C string (the `?` operator propagates the `NulError`
conversion before any native call), then invoke `serial_open`.
`openOutcome` models the shim's report (spec: a descriptive string plus
the OS error code on failure, a descriptor on success).  The second
component records the native calls actually invoked. -/
def SerialDevice.new (path : List Nat) (baudrate : Nat)
    (openOutcome : Except (String × Int) Nat) :
    Except SError Nat × List NativeCall :=
  match cstringNew path with
  | Except.error e => (Except.error e, [])
  | Except.ok cpath =>
      match openOutcome with
      | Except.error (msg, errno) =>
          (Except.error (SError.ioError (ffiErrorDesc msg errno)),
           [NativeCall.openCall cpath baudrate])
      | Except.ok fd => (Except.ok fd, [NativeCall.openCall cpath baudrate])

/-- Claim C8: opening the serial device with a path containing an
embedded null byte fails with the `InvalidArgument` error without
invoking the native open primitive, whatever the native outcome would
have been; with a null-free path, a native open failure is reported as
`IoError` carrying the shim's explanatory message together with the OS
error code. -/
theorem serial_open_error_taxonomy (path : List Nat) (baudrate : Nat)
    (openOutcome : Except (String × Int) Nat) :
    (path.contains 0 = true →
      SerialDevice.new path baudrate openOutcome = (Except.error SError.invalidArgument, [])) ∧
    (path.contains 0 = false → ∀ msg errno, openOutcome = Except.error (msg, errno) →
      SerialDevice.new path baudrate openOutcome
        = (Except.error (SError.ioError (ffiErrorDesc msg errno)),
           [NativeCall.openCall (path ++ [0]) baudrate])) := by
  constructor
  · intro hnul
    have h0 : (0 : Nat) ∈ path := by simpa using hnul
    simp [SerialDevice.new, cstringNew, h0]
  · intro hnul msg errno hout
    have h0 : ¬ (0 : Nat) ∈ path := by simpa using hnul
    simp [SerialDevice.new, cstringNew, h0, hout]

/-- Evaluation of the open-error taxonomy at a path with an embedded
null byte and at a null-free path whose native open fails. -/
theorem serial_open_error_taxonomy_witness :
    (([47, 0, 47] : List Nat).contains 0 = true) ∧
    SerialDevice.new [47, 0, 47] 115200 (Except.ok 3)
      = (Except.error SError.invalidArgument, []) ∧
    (([47, 116] : List Nat).contains 0 = false) ∧
    SerialDevice.new [47, 116] 115200 (Except.error ("no such device", 2))
      = (Except.error (SError.ioError (ffiErrorDesc "no such device" 2)),
         [NativeCall.openCall ([47, 116] ++ [0]) 115200]) :=
  ⟨by decide,
   (serial_open_error_taxonomy [47, 0, 47] 115200 (Except.ok 3)).1 (by decide),
   by decide,
   (serial_open_error_taxonomy [47, 116] 115200
     (Except.error ("no such device", 2))).2 (by decide) "no such device" 2 rfl⟩

/-- `u8::is_ascii_alphanumeric`: the byte ranges of the digits and of
the upper- and lowercase letters. -/
def isAsciiAlphanumeric (b : Nat) : Bool :=
  (48 ≤ b && b ≤ 57) || (65 ≤ b && b ≤ 90) || (97 ≤ b && b ≤ 122)

/-- `u8::is_ascii_punctuation`: the four ASCII punctuation ranges
33–47, 58–64, 91–96 and 123–126. -/
def isAsciiPunctuation (b : Nat) : Bool :=
  (33 ≤ b && b ≤ 47) || (58 ≤ b && b ≤ 64) || (91 ≤ b && b ≤ 96) || (123 ≤ b && b ≤ 126)

/-- `u8::is_ascii_whitespace`: horizontal tab, line feed, form feed,
carriage return and space. -/
def isAsciiWhitespace (b : Nat) : Bool :=
  b == 9 || b == 10 || b == 12 || b == 13 || b == 32

/-- A lowercase hexadecimal digit as Rust's `{:x}` formatting produces
it. -/
def hexDigitChar (n : Nat) : Char :=
  if n < 10 then Char.ofNat (48 + n) else Char.ofNat (87 + n)

/-- Rust's `format!("{byte:02x}")` for a byte value: exactly two
lowercase hexadecimal digits. -/
def byteHex (b : Nat) : String :=
  String.mk [hexDigitChar (b / 16), hexDigitChar (b % 16)]

/-- The per-byte rendering inside the loop of `Logger::log`
(src/logger.rs, lines 17–35): the literal character when the byte is
ASCII alphanumeric, ASCII punctuation or ASCII whitespace, else the
escape sequence backslash-x followed by the two hex digits. -/
def logByte (b : Nat) : String :=
  if isAsciiAlphanumeric b || isAsciiPunctuation b || isAsciiWhitespace b
  then String.mk [Char.ofNat b]
  else "\\x" ++ byteHex b

/-- `Logger::log` (src/logger.rs): renders the bytes to stdout in input
order; each write's result is discarded (`_ = write!(...)`), so the
method returns nothing and reports no failure to the caller.  Modelled
as the total function producing the text written, accumulated write by
write. -/
def loggerLog (data : List Nat) : String :=
  data.foldl (fun acc b => acc ++ logByte b) ""

/-- The rendering the spec describes, stated independently of the code
shape: per byte, in order, the literal character for an ASCII
alphanumeric, ASCII punctuation or ASCII whitespace byte, and otherwise
backslash-x followed by the byte's two-digit lowercase hexadecimal
value, with digits taken from `Nat.digitChar` (which is lowercase). -/
def specRenderByte (b : Nat) : String :=
  if isAsciiAlphanumeric b || isAsciiPunctuation b || isAsciiWhitespace b
  then String.mk [Char.ofNat b]
  else "\\x" ++ String.mk [Nat.digitChar (b / 16), Nat.digitChar (b % 16)]

/-- The spec rendering of a whole buffer: the per-byte renderings
concatenated in order. -/
def specRender (data : List Nat) : String :=
  String.join (data.map specRenderByte)

/-- Folding string concatenation from an accumulator is the accumulator
followed by the join. -/
theorem string_foldl_append (l : List String) (acc : String) :
    l.foldl (fun a s => a ++ s) acc = acc ++ String.join l := by
  induction l generalizing acc with
  | nil => simp [String.join]
  | cons s rest ih =>
      have hj : String.join (s :: rest) = s ++ String.join rest := by
        show List.foldl (fun a t => a ++ t) ("" ++ s) rest = s ++ String.join rest
        rw [ih ("" ++ s)]
        simp
      show List.foldl (fun a t => a ++ t) (acc ++ s) rest = acc ++ String.join (s :: rest)
      rw [ih (acc ++ s), hj, String.append_assoc]

/-- The write-by-write fold of a per-byte rendering equals the
accumulator followed by the join of the per-byte renderings. -/
theorem foldl_render_append (g : Nat → String) (data : List Nat) (acc : String) :
    data.foldl (fun acc b => acc ++ g b) acc = acc ++ String.join (data.map g) := by
  induction data generalizing acc with
  | nil => simp [String.join]
  | cons b rest ih =>
      have hj : String.join (g b :: rest.map g) = g b ++ String.join (rest.map g) := by
        show List.foldl (fun a t => a ++ t) ("" ++ g b) (rest.map g)
          = g b ++ String.join (rest.map g)
        rw [string_foldl_append]
        simp
      show List.foldl (fun acc c => acc ++ g c) (acc ++ g b) rest
        = acc ++ String.join ((b :: rest).map g)
      rw [ih (acc ++ g b)]
      simp [hj, String.append_assoc]

/-- The code's hex digit agrees with `Nat.digitChar` on digit values. -/
theorem hexDigitChar_eq_digitChar (n : Nat) (h : n < 16) :
    hexDigitChar n = Nat.digitChar n := by
  have hall : ∀ m : Fin 16, hexDigitChar m.val = Nat.digitChar m.val := by decide
  exact hall ⟨n, h⟩

/-- On byte values the code's per-byte rendering is the spec's per-byte
rendering. -/
theorem logByte_eq_specRenderByte (b : Nat) (h : b < 256) :
    logByte b = specRenderByte b := by
  unfold logByte specRenderByte byteHex
  have h1 : b / 16 < 16 := by omega
  have h2 : b % 16 < 16 := Nat.mod_lt _ (by omega)
  rw [hexDigitChar_eq_digitChar _ h1, hexDigitChar_eq_digitChar _ h2]

/-- Claim C9: for every byte sequence, `Logger::log` renders, per byte
in input order, the literal character when the byte is ASCII
alphanumeric, ASCII punctuation or ASCII whitespace, and otherwise the
escape sequence backslash-x followed by the byte's two-digit lowercase
hexadecimal value; the rendering is a total function — `log` returns no
value and never reports a failure to the caller, so it can never abort a
forward loop. -/
theorem logger_log_spec (data : List Nat) (h : ∀ b ∈ data, b < 256) :
    loggerLog data = specRender data := by
  unfold loggerLog specRender
  rw [foldl_render_append]
  have hmap : data.map logByte = data.map specRenderByte :=
    List.map_congr_left (fun b hb => logByte_eq_specRenderByte b (h b hb))
  simp [hmap]

/-- Evaluation of the logger rendering on a concrete buffer holding a
letter, a control byte and a byte above 127. -/
theorem logger_log_spec_witness :
    (∀ b ∈ ([65, 0, 255] : List Nat), b < 256) ∧
    loggerLog [65, 0, 255] = specRender [65, 0, 255] :=
  ⟨by decide, logger_log_spec [65, 0, 255] (by decide)⟩

end SerialServer
